import Mathlib

/-!
Verification development for the Incidenter scoring and session engine.

This file gives a shallow embedding, in Lean 4, of the core data model and
operations of the repository:

- the scoring engine (`src/incidenter/scoring/scorer.py`): grade thresholds,
  per-theory quick scoring, theory-accuracy evaluation, the theory-accuracy
  and methodology categories of the full-session score, and the
  division-guarded percentage computations;
- the session manager (`src/utils/session_manager.py`): the session state
  record, evidence/action/theory recording, resume, save and the
  retention cleanup of persisted session files;
- the evidence discovery resolver (`src/server/app.py`):
  action-to-evidence-type mapping, keyword matching, importance-based
  discovery probability and the per-candidate random draw.

Modelling conventions:
- Python ints are `Int`/`Nat`; Python floats are `Rat` (all float values
  reached in the verified properties are exact in binary floating point, so
  the rational model agrees with the source; `int(x)` truncation on
  non-negative values is `Int.floor`);
- Python dicts with a fixed key set are structures; open string-keyed dicts
  (theory component maps) are association lists looked up with `find?`;
- wall-clock timestamps are opaque strings or abstract `Nat` instants
  supplied as explicit arguments;
- `random.random()` is an injected draw stream `rng : Nat -> Rat`, consumed
  left to right, one draw per evaluated candidate;
- file-system persistence is a list of (session id, modification time)
  records; I/O failure branches (the `except` handlers, which only log) are
  outside the model.
-/

namespace Incidenter

/-- Does `pat` occur at the start of `l`? (helper for substring containment) -/
def startsWithChars : List Char → List Char → Bool
  | [], _ => true
  | _ :: _, [] => false
  | a :: pat, b :: l => a = b && startsWithChars pat l

/-- Does `pat` occur contiguously anywhere in `l`? -/
def containsChars (pat : List Char) : List Char → Bool
  | [] => pat.isEmpty
  | b :: l => startsWithChars pat (b :: l) || containsChars pat l

/-- Python `needle in haystack` on strings: substring containment,
as used throughout `scorer.py` and `app.py`. -/
def substrOf (needle haystack : String) : Bool :=
  containsChars needle.toList haystack.toList

/-- Python `str.lower()`, modelled character by character (every string the
repository lowercases is ASCII). -/
def pyLower (s : String) : String :=
  String.mk (s.data.map Char.toLower)

/-- Python `str.strip()`: drop leading and trailing whitespace. -/
def pyStrip (s : String) : String :=
  String.mk (((s.data.dropWhile Char.isWhitespace).reverse.dropWhile
    Char.isWhitespace).reverse)

/-! ## Scorer: grade thresholds (scorer.py lines 74-88, 626-631) -/

/-- The ordered threshold table `IncidenterScorer.grade_thresholds`
(a Python dict, iterated in insertion order: highest threshold first). -/
def grade_thresholds : List (ℚ × String) :=
  [(90, "A+"), (85, "A"), (80, "A-"), (75, "B+"), (70, "B"), (65, "B-"),
   (60, "C+"), (55, "C"), (50, "C-"), (45, "D+"), (40, "D"), (0, "F")]

/-- The `for threshold, grade in ...: if percentage >= threshold: return`
loop of `_calculate_grade`. -/
def find_grade (percentage : ℚ) : List (ℚ × String) → Option String
  | [] => none
  | tg :: rest =>
    if percentage ≥ tg.1 then some tg.2 else find_grade percentage rest

/-- `IncidenterScorer._calculate_grade`: first threshold with
`percentage >= threshold` wins; fallback is "F". -/
def calculate_grade (percentage : ℚ) : String :=
  (find_grade percentage grade_thresholds).getD "F"

/-! ## Scorer: per-theory quick score (scorer.py lines 706-799) -/

/-- The fixed component weight table in `score_theory`
(`components` dict, in insertion order). -/
def components : List (String × Int) :=
  [("initial_access", 20), ("techniques_used", 20), ("timeline", 15),
   ("objective", 15), ("attribution", 10), ("impact", 10),
   ("additional_iocs", 10)]

/-- A theory submission: the open string-keyed dict of rubric components. -/
def TheoryDict := List (String × String)

/-- Dict lookup, `theory[component]` guarded by `component in theory`. -/
def dictFind (d : TheoryDict) (k : String) : Option String :=
  (d.find? (fun p => p.1 = k)).map Prod.snd

/-- One component's score in `score_theory`: present and non-blank earns
`int(max_points * 0.9)` for length > 50, `int(max_points * 0.7)` for
length > 20, else `int(max_points * 0.5)`; absent or blank earns 0.
For the weight values 20, 15, 10 the float products are exact binary
floats (18.0, 13.5, 9.0, 14.0, 10.5, 7.0, 10.0, 7.5, 5.0), so Python's
`int` truncation coincides with `Int.floor` of the rational product. -/
def componentScore (theory : TheoryDict) (component : String)
    (max_points : Int) : Int :=
  match dictFind theory component with
  | some v =>
    if (pyStrip v) ≠ "" then
      if v.length > 50 then Int.floor ((max_points : ℚ) * (9 / 10))
      else if v.length > 20 then Int.floor ((max_points : ℚ) * (7 / 10))
      else Int.floor ((max_points : ℚ) * (5 / 10))
    else 0
  | none => 0

/-- The result record of `score_theory` (presentation-only fields —
the feedback paragraph and per-category display rows — are omitted;
no verified property mentions them). -/
structure TheoryScoreResult where
  total_score : Int
  max_possible_score : Int
  percentage : ℚ
  grade : String
  performance_level : String
  component_scores : List (String × Int)
  deriving Repr, DecidableEq

/-- `IncidenterScorer.score_theory` on the theory component dict:
sum the component scores, percentage is `total / 100 * 100`, grade from the
threshold table, performance level from the fixed 90/80/70/60 tiers. -/
def score_theory (theory : TheoryDict) : TheoryScoreResult :=
  let component_scores := components.map
    (fun cw => (cw.1, componentScore theory cw.1 cw.2))
  let total_score := (component_scores.map Prod.snd).sum
  let max_possible_score := (components.map Prod.snd).sum
  let percentage := ((total_score : ℚ) / (max_possible_score : ℚ)) * 100
  let grade := calculate_grade percentage
  let performance_level :=
    if percentage ≥ 90 then "Outstanding"
    else if percentage ≥ 80 then "Excellent"
    else if percentage ≥ 70 then "Good"
    else if percentage ≥ 60 then "Satisfactory"
    else "Needs Improvement"
  ⟨total_score, max_possible_score, percentage, grade, performance_level,
   component_scores⟩

/-! ## Scorer: score breakdowns and percentages (scorer.py lines 13-56, 124-137) -/

/-- `ScoreCategory` enum. -/
inductive ScoreCategory where
  | INVESTIGATION_TECHNIQUE
  | EVIDENCE_ANALYSIS
  | THEORY_ACCURACY
  | TIME_EFFICIENCY
  | COMPLETENESS
  | METHODOLOGY
  deriving Repr, DecidableEq

/-- `ScoreBreakdown` dataclass. -/
structure ScoreBreakdown where
  category : ScoreCategory
  points_earned : Int
  points_possible : Int
  feedback : String
  details : List String
  deriving Repr, DecidableEq

namespace ScoreBreakdown

/-- The `ScoreBreakdown.percentage` property: 0.0 when `points_possible`
is 0, otherwise `points_earned / points_possible * 100`. -/
def percentage (b : ScoreBreakdown) : ℚ :=
  if b.points_possible = 0 then 0
  else ((b.points_earned : ℚ) / (b.points_possible : ℚ)) * 100

end ScoreBreakdown

/-- `IncidenterScorer.category_weights`. -/
def category_weights : ScoreCategory → ℚ
  | .INVESTIGATION_TECHNIQUE => 25 / 100
  | .EVIDENCE_ANALYSIS => 20 / 100
  | .THEORY_ACCURACY => 30 / 100
  | .TIME_EFFICIENCY => 10 / 100
  | .COMPLETENESS => 10 / 100
  | .METHODOLOGY => 5 / 100

/-- The weighted earned-points accumulation in `score_game_session`. -/
def weighted_total (breakdowns : List ScoreBreakdown) : ℚ :=
  (breakdowns.map
    (fun b => (b.points_earned : ℚ) * category_weights b.category)).sum

/-- The weighted possible-points accumulation in `score_game_session`. -/
def weighted_possible (breakdowns : List ScoreBreakdown) : ℚ :=
  (breakdowns.map
    (fun b => (b.points_possible : ℚ) * category_weights b.category)).sum

/-- The overall percentage computed by `score_game_session`:
`total_points / possible_points * 100` guarded by `possible_points > 0`,
else 0. -/
def session_percentage (breakdowns : List ScoreBreakdown) : ℚ :=
  if weighted_possible breakdowns > 0 then
    weighted_total breakdowns / weighted_possible breakdowns * 100
  else 0

/-! ## Scorer: theory accuracy against the solution (scorer.py lines 589-624) -/

/-- One entry of a session's `theories_submitted` list, as appended by
`SessionManager.add_theory_submitted`. -/
structure TheoryEntry where
  timestamp : String
  theory : String
  phase : String
  deriving Repr, DecidableEq

/-- The scenario's optional `solution` block, with the dict-`get` defaults
of `_evaluate_theory_accuracy` folded in: a missing block or missing key
reads as the empty string / empty list. -/
structure Solution where
  attack_type : String
  attack_vector : String
  key_indicators : List String
  deriving Repr, DecidableEq

/-- The empty `solution` block: `scenario_data.get("solution", {})` when the
scenario declares none. -/
def emptySolution : Solution := ⟨"", "", []⟩

/-- The fixed generic `theory_elements` list of `_evaluate_theory_accuracy`. -/
def theory_elements : List String :=
  ["timeline", "motivation", "impact", "technique"]

/-- `IncidenterScorer._evaluate_theory_accuracy`: up to 30 points for the
attack type appearing verbatim (case-insensitive) in the theory text, up to
25 for the attack vector, up to 30 proportional to the key indicators found,
up to 15 proportional to the generic elements mentioned; capped at 100. -/
def evaluate_theory_accuracy (theory : TheoryEntry) (solution : Solution) :
    ℚ :=
  let theory_text := pyLower theory.theory
  let attack_type := pyLower solution.attack_type
  let attack_vector := pyLower solution.attack_vector
  let key_indicators := solution.key_indicators.map pyLower
  let s1 : ℚ :=
    if attack_type ≠ "" ∧ substrOf attack_type theory_text then 30 else 0
  let s2 : ℚ :=
    if attack_vector ≠ "" ∧ substrOf attack_vector theory_text then 25 else 0
  let indicators_found :=
    (key_indicators.filter (fun ind => substrOf ind theory_text)).length
  let s3 : ℚ :=
    if key_indicators ≠ [] then
      ((indicators_found : ℚ) / (key_indicators.length : ℚ)) * 30
    else 0
  let elements_mentioned :=
    (theory_elements.filter (fun e => substrOf e theory_text)).length
  let s4 : ℚ := ((elements_mentioned : ℚ) / (theory_elements.length : ℚ)) * 15
  min (s1 + s2 + s3 + s4) 100

/-! ## Scorer: theory-accuracy category (scorer.py lines 298-357) -/

/-- `IncidenterScorer._score_theory_accuracy`: explicit zero breakdown when
no theories were submitted; otherwise best theory score, +10 bonus when more
than one theory scores >= 60, capped at 100. (The per-theory detail strings
of the non-empty branch render the rational score where Python formats the
float.) -/
def score_theory_accuracy (scenario_solution : Solution)
    (theories : List TheoryEntry) : ScoreBreakdown :=
  if theories.isEmpty then
    { category := .THEORY_ACCURACY
      points_earned := 0
      points_possible := 100
      feedback := "No theories submitted for evaluation."
      details := ["No theories submitted"] }
  else
    let theory_scores :=
      theories.map (fun t => evaluate_theory_accuracy t scenario_solution)
    let details := theory_scores.map
      (fun s => "Theory accuracy: " ++ toString s ++ "%")
    let best_theory_score := theory_scores.foldl max 0
    let base_points : Int := Int.floor best_theory_score
    let points_earned :=
      if (theory_scores.filter (fun s => s ≥ 60)).length > 1 then
        base_points + 10
      else base_points
    let points_earned := min points_earned 100
    let details :=
      if (theory_scores.filter (fun s => s ≥ 60)).length > 1 then
        details ++ ["Bonus: Multiple viable theories developed"]
      else details
    let feedback := "Theory accuracy score: " ++ toString points_earned ++
      "/100. " ++
      (if points_earned ≥ 80 then "Excellent understanding of the incident."
       else if points_earned ≥ 60 then
         "Good grasp of the incident with minor gaps."
       else
         "Theory needs refinement - consider reviewing evidence more carefully.")
    { category := .THEORY_ACCURACY
      points_earned := points_earned
      points_possible := 100
      feedback := feedback
      details := details }

/-! ## Scorer: methodology category (scorer.py lines 479-542) -/

/-- One entry of a session's `investigation_actions` list, as appended by
`SessionManager.add_investigation_action`. -/
structure ActionEntry where
  timestamp : String
  action : String
  details : String
  phase : String
  deriving Repr, DecidableEq

/-- Python `set.add`: insert unless already present (a list with distinct
elements models the set; its length is the set's cardinality). -/
def setAdd (s : List String) (x : String) : List String :=
  if s.contains x then s else x :: s

/-- The `phases_covered` set folded over the actions: each action falls into
the first (if any) matching branch of the `elif` chain. -/
def phases_covered (actions : List ActionEntry) : List String :=
  actions.foldl
    (fun phases action =>
      let action_text := pyLower action.action ++ " " ++ pyLower action.details
      if ["identify", "detect", "alert"].any
          (fun t => substrOf t action_text) then
        setAdd phases "identification"
      else if ["contain", "isolate", "block"].any
          (fun t => substrOf t action_text) then
        setAdd phases "containment"
      else if ["eradicate", "remove", "clean"].any
          (fun t => substrOf t action_text) then
        setAdd phases "eradication"
      else if ["recover", "restore", "resume"].any
          (fun t => substrOf t action_text) then
        setAdd phases "recovery"
      else if ["lesson", "review", "improve"].any
          (fun t => substrOf t action_text) then
        setAdd phases "lessons_learned"
      else phases)
    []

/-- `IncidenterScorer._score_methodology`: 20 points per covered
incident-response phase, plus a documentation bonus of 20 (or 10) points
when at least 80% (or 50%) of actions have details longer than 20
characters. `points_possible` stays 100 even though up to 120 points can
be earned. -/
def score_methodology (actions : List ActionEntry) : ScoreBreakdown :=
  let methodology_points : Int := (phases_covered actions).length * 20
  let details := ["Covered " ++ toString (phases_covered actions).length ++
    " IR methodology phases"]
  let documented_actions :=
    (actions.filter (fun a => a.details.length > 20)).length
  let docBonus : Int × List String :=
    if (documented_actions : ℚ) ≥ (actions.length : ℚ) * (8 / 10) then
      (20, ["Excellent documentation of actions"])
    else if (documented_actions : ℚ) ≥ (actions.length : ℚ) * (5 / 10) then
      (10, ["Good documentation practices"])
    else (0, [])
  let points_earned := methodology_points + docBonus.1
  let feedback := "Methodology score: " ++ toString points_earned ++
    "/100. " ++
    (if points_earned ≥ 70 then "Strong adherence to IR methodology."
     else if points_earned ≥ 50 then
       "Good methodology with room for improvement."
     else "Consider following established IR frameworks more closely.")
  { category := .METHODOLOGY
    points_earned := points_earned
    points_possible := 100
    feedback := feedback
    details := details ++ docBonus.2 }

/-! ## Session manager: state and ledgers (session_manager.py lines 15-38) -/

/-- One entry of a session's `evidence_discovered` list: the formatted
evidence dict produced by the discovery resolver (all keys present; the
`.get` defaults of `app.py` for absent keys are folded into total fields),
plus the optional `discovered_at` stamp. -/
structure DiscoveredEvidence where
  id : String
  etype : String
  source : String
  importance : String
  description : String
  content : String
  discovered_at : Option String
  deriving Repr, DecidableEq

/-- The `SessionState` dataclass. Timestamps are abstract `Nat` instants;
`score_checkpoints`, `final_score` and `metadata` values are kept as opaque
strings (no modelled operation inspects them). -/
structure SessionState where
  session_id : String
  scenario_id : String
  scenario_name : String
  player_name : String
  start_time : Nat
  current_phase : String
  investigation_actions : List ActionEntry
  evidence_discovered : List DiscoveredEvidence
  theories_submitted : List TheoryEntry
  hints_used : Nat
  score_checkpoints : List String
  is_completed : Bool
  completion_time : Option Nat
  final_score : Option String
  session_notes : String
  metadata : List (String × String)
  deriving Repr, DecidableEq

/-! ## Session manager: recording evidence (session_manager.py lines 349-368) -/

/-- `SessionManager.add_evidence_discovered` acting on the current session
(`none` models "no active session", which returns failure): stamps
`discovered_at` with the current time only when the key is absent, then
unconditionally appends the evidence entry to `evidence_discovered`.
The happy-path `save_session` result is `true`; I/O failure is outside
the model. -/
def add_evidence_discovered (current_session : Option SessionState)
    (evidence : DiscoveredEvidence) (now : String) :
    Option SessionState × Bool :=
  match current_session with
  | none => (none, false)
  | some s =>
    let evidence :=
      match evidence.discovered_at with
      | none => { evidence with discovered_at := some now }
      | some _ => evidence
    (some { s with
      evidence_discovered := s.evidence_discovered ++ [evidence] }, true)

/-! ## Session manager: resume (session_manager.py lines 301-322) -/

/-- The manager's observable state for resume: the active session and the
persisted sessions keyed by id (`load_session` consults a cache before the
file store, but both map a session id to the same state here, so a single
lookup table models the pair). -/
structure ManagerState where
  current_session : Option SessionState
  store : List (String × SessionState)
  deriving Repr, DecidableEq

/-- `SessionManager.load_session`: the persisted state for the id, or
`none` when the record is missing (or unreadable). -/
def load_session (m : ManagerState) (session_id : String) :
    Option SessionState :=
  (m.store.find? (fun p => p.1 = session_id)).map Prod.snd

/-- `SessionManager.resume_session`: loads the session; a missing session
or a completed session yields `none` and leaves the manager untouched; an
existing non-completed session becomes the current session and is
returned. -/
def resume_session (m : ManagerState) (session_id : String) :
    Option SessionState × ManagerState :=
  match load_session m session_id with
  | none => (none, m)
  | some session =>
    if session.is_completed then (none, m)
    else (some session, { m with current_session := some session })

/-! ## Evidence discovery resolver (server/app.py lines 49-284) -/

/-- An evidence item authored into a scenario (`scenario["evidence"]["items"]`
entries, with the `.get` defaults for absent keys folded into total
fields). -/
structure EvidenceItem where
  id : String
  etype : String
  source : String
  importance : String
  description : String
  content : String
  deriving Repr, DecidableEq

/-- The `action_mappings` lookup table of `check_for_evidence_discovery`,
with the dict-`get` fallback `["security_alert"]` for unknown actions. -/
def action_mappings (action : String) : List String :=
  if action = "examine_logs" then
    ["web_log", "file_system_log", "database_log", "security_alert",
     "security_log", "log", "process", "registry", "memory", "email"]
  else if action = "analyze_network" then
    ["network_log", "network", "forensic"]
  else if action = "check_system" then
    ["file_system_log", "security_alert", "process", "registry", "malware",
     "forensic"]
  else if action = "analyze_file" then
    ["file_system_log", "process", "malware", "forensic"]
  else if action = "search_database" then
    ["database_log", "log", "report"]
  else if action = "contact_vendor" then
    ["vendor_advisory", "report", "intelligence"]
  else if action = "interview_user" then
    ["email", "witness", "report"]
  else if action = "run_command" then
    ["file_system_log", "security_alert", "process", "registry", "forensic"]
  else if action = "other" then
    ["web_log", "network_log", "security_alert", "email", "process",
     "registry", "memory", "network", "lateral_movement", "log", "report",
     "malware", "intelligence", "forensic"]
  else ["security_alert"]

/-- `check_evidence_keywords`: builds the keyword list from the evidence
type (substring checks on the type tag) and from cross-cutting terms in the
evidence content/description/source, then asks whether any keyword occurs in
the lowered details text. -/
def check_evidence_keywords (details : String) (evidence : EvidenceItem) :
    Bool :=
  let details_lower := pyLower details
  let evidence_content := pyLower evidence.content
  let evidence_description := pyLower evidence.description
  let evidence_type := pyLower evidence.etype
  let keywords : List String :=
    (if substrOf "email" evidence_type then
      ["email", "phishing", "attachment", "mail", "message", "sender"]
     else []) ++
    (if substrOf "process" evidence_type then
      ["powershell", "cmd", "process", "execution", "command", "script"]
     else []) ++
    (if substrOf "network" evidence_type then
      ["network", "traffic", "connection", "ip", "domain", "dns"]
     else []) ++
    (if substrOf "registry" evidence_type then
      ["registry", "hklm", "hkcu", "run", "startup", "persistence"]
     else []) ++
    (if substrOf "memory" evidence_type then
      ["memory", "lsass", "dump", "credential", "hash"]
     else []) ++
    (if substrOf "lateral_movement" evidence_type then
      ["smb", "admin$", "c$", "wmi", "lateral", "movement"]
     else []) ++
    (if substrOf "log" evidence_type then
      ["log", "event", "audit", "system", "security", "application"]
     else []) ++
    (if substrOf "report" evidence_type then
      ["report", "analysis", "summary", "findings", "investigation"]
     else []) ++
    (if substrOf "malware" evidence_type then
      ["malware", "virus", "trojan", "backdoor", "payload", "sample"]
     else []) ++
    (if substrOf "intelligence" evidence_type then
      ["intelligence", "ioc", "indicator", "threat", "attribution",
       "campaign"]
     else []) ++
    (if substrOf "forensic" evidence_type then
      ["forensic", "analysis", "artifact", "evidence", "timeline",
       "investigation"]
     else []) ++
    (if substrOf "sql" evidence_description || substrOf "sql" evidence_content
     then ["sql", "injection", "database"] else []) ++
    (if substrOf "web shell" evidence_description ||
        substrOf "aspx" evidence_content
     then ["web shell", "file", "aspx", "php"] else []) ++
    (if substrOf "vendor" (pyLower evidence.source)
     then ["vendor", "advisory", "bulletin", "patch"] else []) ++
    (if substrOf "hvac" evidence_description ||
        substrOf "hvac" evidence_content
     then ["hvac", "cooling", "heating", "vendor", "third-party"] else [])
  keywords.any (fun keyword => substrOf keyword details_lower)

/-- `calculate_discovery_chance`: base rate by importance (with the
dict-`get` default 0.4), boosted by +0.3 capped at 0.95 on a keyword
match. -/
def calculate_discovery_chance (evidence : EvidenceItem)
    (keywords_match : Bool) : ℚ :=
  let chance : ℚ :=
    if evidence.importance = "critical" then 8 / 10
    else if evidence.importance = "high" then 6 / 10
    else if evidence.importance = "medium" then 4 / 10
    else if evidence.importance = "low" then 2 / 10
    else 4 / 10
  if keywords_match then min (95 / 100) (chance + 3 / 10) else chance

/-- The formatted evidence dict returned on a successful discovery. -/
def format_evidence (evidence : EvidenceItem) (now : String) :
    DiscoveredEvidence :=
  { id := evidence.id
    etype := evidence.etype
    source := evidence.source
    importance := evidence.importance
    description := evidence.description
    content := evidence.content
    discovered_at := some now }

/-- The candidate loop of `check_for_evidence_discovery`: skip discovered
ids and non-matching types; each remaining candidate consumes one draw from
the stream (`random.random()`), succeeding when the draw is below its
discovery chance, otherwise the loop moves on to the next candidate. -/
def discovery_loop (details : String) (evidence_types : List String)
    (discovered_ids : List String) (rng : Nat → ℚ) (now : String) :
    Nat → List EvidenceItem → Option DiscoveredEvidence
  | _, [] => none
  | i, evidence_item :: rest =>
    if discovered_ids.contains evidence_item.id then
      discovery_loop details evidence_types discovered_ids rng now i rest
    else if evidence_types.contains evidence_item.etype then
      let keywords_match := check_evidence_keywords details evidence_item
      let discovery_chance :=
        calculate_discovery_chance evidence_item keywords_match
      if rng i < discovery_chance then some (format_evidence evidence_item now)
      else discovery_loop details evidence_types discovered_ids rng now
        (i + 1) rest
    else discovery_loop details evidence_types discovered_ids rng now i rest

/-- The `discovered_ids` set read off the session's evidence ledger:
ids of already-discovered evidence with a truthy (non-empty) value. -/
def session_discovered_ids (evidence_discovered : List DiscoveredEvidence) :
    List String :=
  (evidence_discovered.map (fun ev => ev.id)).filter (fun i => i ≠ "")

/-- `check_for_evidence_discovery`: the already-discovered id set is read
off the session's evidence ledger (ids with a truthy value), the action is
mapped to acceptable evidence types, and the scenario's items are scanned in
declared order by `discovery_loop`. -/
def check_for_evidence_discovery (action : String) (details : String)
    (scenario_items : List EvidenceItem)
    (evidence_discovered : List DiscoveredEvidence) (rng : Nat → ℚ)
    (now : String) : Option DiscoveredEvidence :=
  if scenario_items.isEmpty then none
  else
    let discovered_ids := session_discovered_ids evidence_discovered
    let evidence_types := action_mappings action
    discovery_loop details evidence_types discovered_ids rng now 0
      scenario_items

/-- The type-eligible, not-yet-discovered candidate sublist, in declared
order: the items `discovery_loop` actually draws for. -/
def eligible_items (evidence_types : List String)
    (discovered_ids : List String) (items : List EvidenceItem) :
    List EvidenceItem :=
  items.filter (fun it =>
    !discovered_ids.contains it.id && evidence_types.contains it.etype)

/-! ## Session store retention (session_manager.py lines 113-155, 600-649) -/

/-- The persisted session files: one record per session id, with the file's
last-modification time (an abstract strictly-monotone clock instant). -/
abbrev SessionStore := List (String × Nat)

/-- Stable descending insertion by modification time (ties keep the earlier
element first, as Python's stable `list.sort(..., reverse=True)`). -/
def insertByMtimeDesc (p : String × Nat) : SessionStore → SessionStore
  | [] => [p]
  | q :: rest =>
    if q.2 > p.2 then q :: insertByMtimeDesc p rest else p :: q :: rest

/-- The `session_files.sort(key=mtime, reverse=True)` step of
`_cleanup_old_sessions`. -/
def sortByMtimeDesc (store : SessionStore) : SessionStore :=
  store.foldr insertByMtimeDesc []

/-- `SessionManager._cleanup_old_sessions`: when more than `max_sessions`
files are persisted, delete all but the `max_sessions` newest (by
modification time); otherwise leave the store untouched. -/
def cleanup_old_sessions (max_sessions : Nat) (store : SessionStore) :
    SessionStore :=
  let session_files := sortByMtimeDesc store
  if store.length > max_sessions then session_files.take max_sessions
  else store

/-- Writing the session's JSON file inside `save_session`: overwrites any
prior record for the id and stamps the current clock instant as the file's
modification time. -/
def write_session_file (store : SessionStore) (session_id : String)
    (mtime : Nat) : SessionStore :=
  (session_id, mtime) :: store.filter (fun p => p.1 ≠ session_id)

/-- `SessionManager.save_session`'s effect on the persisted store: write
the record, then run the retention cleanup. (`create_session` persists via
the same `save_session` call, so a create is a save of a fresh id.) -/
def save_session (max_sessions : Nat) (store : SessionStore)
    (session_id : String) (mtime : Nat) : SessionStore :=
  cleanup_old_sessions max_sessions (write_session_file store session_id mtime)

/-- A sequence of create/save operations, one clock tick apart: the
session id saved at each step, with modification times `t, t+1, ...`. -/
def run_saves (max_sessions : Nat) : SessionStore → Nat → List String →
    SessionStore
  | store, _, [] => store
  | store, t, session_id :: rest =>
    run_saves max_sessions (save_session max_sessions store session_id t)
      (t + 1) rest

/-- The save history with its modification times: the id at position `i`
is stamped `t0 + i`. -/
def stamp_times (t0 : Nat) : List String → SessionStore
  | [] => []
  | session_id :: rest => (session_id, t0) :: stamp_times (t0 + 1) rest

/-- Keep only the first record per session id (for a most-recent-first
history, the first record is the id's latest save). -/
def dedup_by_id : SessionStore → SessionStore
  | [] => []
  | p :: rest => p :: (dedup_by_id rest).filter (fun q => q.1 ≠ p.1)

/-- The retention specification: the `max_sessions` most recently modified
session records, newest first — each id's latest save, most recent first,
truncated to `max_sessions`. -/
def retained_sessions (max_sessions : Nat) (t0 : Nat) (ops : List String) :
    SessionStore :=
  (dedup_by_id (stamp_times t0 ops).reverse).take max_sessions

/-! ## Verified properties -/

/-- Unfolding step for the grade-threshold loop. -/
theorem find_grade_cons (p t : ℚ) (g : String) (rest : List (ℚ × String)) :
    find_grade p ((t, g) :: rest) =
      if p ≥ t then some g else find_grade p rest := rfl

/-- C7: `_calculate_grade` checks the fixed thresholds (90→A+, 85→A, 80→A-,
75→B+, 70→B, 65→B-, 60→C+, 55→C, 50→C-, 45→D+, 40→D, else F) from highest
to lowest with the first match winning; in particular a percentage of
exactly 90.0 maps to "A+" and 89.999 maps to "A". -/
theorem calculate_grade_thresholds :
    (∀ percentage : ℚ, calculate_grade percentage =
      (if percentage ≥ 90 then "A+"
       else if percentage ≥ 85 then "A"
       else if percentage ≥ 80 then "A-"
       else if percentage ≥ 75 then "B+"
       else if percentage ≥ 70 then "B"
       else if percentage ≥ 65 then "B-"
       else if percentage ≥ 60 then "C+"
       else if percentage ≥ 55 then "C"
       else if percentage ≥ 50 then "C-"
       else if percentage ≥ 45 then "D+"
       else if percentage ≥ 40 then "D"
       else "F")) ∧
    calculate_grade 90 = "A+" ∧ calculate_grade (89999 / 1000) = "A" := by
  have hgen : ∀ percentage : ℚ, calculate_grade percentage =
      (if percentage ≥ 90 then "A+"
       else if percentage ≥ 85 then "A"
       else if percentage ≥ 80 then "A-"
       else if percentage ≥ 75 then "B+"
       else if percentage ≥ 70 then "B"
       else if percentage ≥ 65 then "B-"
       else if percentage ≥ 60 then "C+"
       else if percentage ≥ 55 then "C"
       else if percentage ≥ 50 then "C-"
       else if percentage ≥ 45 then "D+"
       else if percentage ≥ 40 then "D"
       else "F") := by
    intro percentage
    show (find_grade percentage grade_thresholds).getD "F" = _
    rw [grade_thresholds]
    rw [find_grade_cons, find_grade_cons, find_grade_cons, find_grade_cons,
      find_grade_cons, find_grade_cons, find_grade_cons, find_grade_cons,
      find_grade_cons, find_grade_cons, find_grade_cons, find_grade_cons]
    by_cases h90 : percentage ≥ 90
    · simp only [if_pos h90]; rfl
    simp only [if_neg h90]
    by_cases h85 : percentage ≥ 85
    · simp only [if_pos h85]; rfl
    simp only [if_neg h85]
    by_cases h80 : percentage ≥ 80
    · simp only [if_pos h80]; rfl
    simp only [if_neg h80]
    by_cases h75 : percentage ≥ 75
    · simp only [if_pos h75]; rfl
    simp only [if_neg h75]
    by_cases h70 : percentage ≥ 70
    · simp only [if_pos h70]; rfl
    simp only [if_neg h70]
    by_cases h65 : percentage ≥ 65
    · simp only [if_pos h65]; rfl
    simp only [if_neg h65]
    by_cases h60 : percentage ≥ 60
    · simp only [if_pos h60]; rfl
    simp only [if_neg h60]
    by_cases h55 : percentage ≥ 55
    · simp only [if_pos h55]; rfl
    simp only [if_neg h55]
    by_cases h50 : percentage ≥ 50
    · simp only [if_pos h50]; rfl
    simp only [if_neg h50]
    by_cases h45 : percentage ≥ 45
    · simp only [if_pos h45]; rfl
    simp only [if_neg h45]
    by_cases h40 : percentage ≥ 40
    · simp only [if_pos h40]; rfl
    simp only [if_neg h40]
    by_cases h0 : percentage ≥ 0
    · simp only [if_pos h0]; rfl
    simp only [if_neg h0]; rfl
  refine ⟨hgen, ?_, ?_⟩
  · rw [hgen]; norm_num
  · rw [hgen]; norm_num

/-- C8: with an empty `theories_submitted` list, `_score_theory_accuracy`
returns the explicit zero breakdown — 0 points earned of 100 possible with
the distinct "no theories submitted" feedback — for every scenario
solution, without running the accuracy computation. -/
theorem score_theory_accuracy_no_theories (solution : Solution) :
    score_theory_accuracy solution [] =
      { category := .THEORY_ACCURACY
        points_earned := 0
        points_possible := 100
        feedback := "No theories submitted for evaluation."
        details := ["No theories submitted"] } := rfl

/-- C10: the `ScoreBreakdown.percentage` accessor returns 0 when
`points_possible` is 0 instead of dividing, and the overall session
percentage of `score_game_session` is 0 when the weighted possible points
are 0, so neither computation divides by zero. -/
theorem percentage_zero_possible :
    (∀ b : ScoreBreakdown, b.points_possible = 0 →
      b.percentage = 0) ∧
    (∀ breakdowns : List ScoreBreakdown, weighted_possible breakdowns = 0 →
      session_percentage breakdowns = 0) := by
  constructor
  · intro b h
    simp [ScoreBreakdown.percentage, h]
  · intro breakdowns h
    simp [session_percentage, h]

/-- Witness for C10: a breakdown with 0 possible points has percentage 0,
and the empty breakdown list (weighted possible points 0) yields session
percentage 0. -/
theorem percentage_zero_possible_witness :
    (ScoreBreakdown.mk .METHODOLOGY 5 0 "" []).percentage = 0 ∧
    session_percentage [] = 0 :=
  ⟨percentage_zero_possible.1 (ScoreBreakdown.mk .METHODOLOGY 5 0 "" []) rfl,
   percentage_zero_possible.2 [] rfl⟩

/-- A session input covering all five incident-response methodology phases,
each action documented with details longer than 20 characters. -/
def methodology_sample_actions : List ActionEntry :=
  [⟨"t1", "detect", "we detect the alert carefully here", "p1"⟩,
   ⟨"t2", "contain", "isolate the infected host now", "p1"⟩,
   ⟨"t3", "eradicate", "remove malware from machines", "p2"⟩,
   ⟨"t4", "recover", "restore systems from backup data", "p2"⟩,
   ⟨"t5", "lessons", "review and improve the process", "p3"⟩]

/-- C9: there is a session input — five actions covering all five
methodology phases with details over 20 characters each — for which
`_score_methodology` earns 120 points of 100 possible, so the breakdown's
`points_earned` exceeds its `points_possible`. -/
theorem score_methodology_exceeds_possible :
    (score_methodology methodology_sample_actions).points_earned = 120 ∧
    (score_methodology methodology_sample_actions).points_possible = 100 ∧
    (score_methodology methodology_sample_actions).points_earned >
      (score_methodology methodology_sample_actions).points_possible := by
  have hphases : phases_covered methodology_sample_actions =
      ["lessons_learned", "recovery", "eradication", "containment",
       "identification"] := by decide
  have hdoc : (methodology_sample_actions.filter
      (fun a => a.details.length > 20)).length = 5 := by decide
  have hlen : methodology_sample_actions.length = 5 := by decide
  have hpe : (score_methodology methodology_sample_actions).points_earned =
      120 := by
    simp only [score_methodology, hphases, hdoc, hlen]
    rw [if_pos (by norm_num)]
    rfl
  have hpp : (score_methodology methodology_sample_actions).points_possible =
      100 := rfl
  refine ⟨hpe, hpp, ?_⟩
  rw [hpe, hpp]
  norm_num

/-- A stably sorted list is unchanged by the sorting step. -/
theorem sortByMtimeDesc_eq_self (l : SessionStore)
    (h : l.Pairwise (fun a b => a.2 > b.2)) : sortByMtimeDesc l = l := by
  induction l with
  | nil => rfl
  | cons p rest ih =>
    have hhead := (List.pairwise_cons.mp h).1
    have htail := (List.pairwise_cons.mp h).2
    show insertByMtimeDesc p (sortByMtimeDesc rest) = p :: rest
    rw [ih htail]
    cases rest with
    | nil => rfl
    | cons q rest' =>
      show (if q.2 > p.2 then q :: insertByMtimeDesc p rest'
        else p :: q :: rest') = p :: q :: rest'
      rw [if_neg (by have := hhead q (by simp); omega)]

/-- First-per-id deduplication only removes elements. -/
theorem dedup_by_id_sublist (l : SessionStore) :
    (dedup_by_id l).Sublist l := by
  induction l with
  | nil => simp [dedup_by_id]
  | cons p rest ih =>
    rw [show dedup_by_id (p :: rest) =
      p :: (dedup_by_id rest).filter (fun q => q.1 ≠ p.1) from rfl]
    exact List.Sublist.cons₂ p ((List.filter_sublist _).trans ih)

/-- First-per-id deduplication leaves pairwise-distinct session ids. -/
theorem dedup_by_id_pairwise (l : SessionStore) :
    (dedup_by_id l).Pairwise (fun a b => a.1 ≠ b.1) := by
  induction l with
  | nil => simp [dedup_by_id]
  | cons p rest ih =>
    rw [show dedup_by_id (p :: rest) =
      p :: (dedup_by_id rest).filter (fun q => q.1 ≠ p.1) from rfl]
    refine List.pairwise_cons.mpr ⟨?_, ih.filter _⟩
    intro q hq
    have h1 : q.1 ≠ p.1 := by simpa using List.of_mem_filter hq
    exact fun h => h1 h.symm

/-- The filtered prefix of a list is a prefix of the filtered list. -/
theorem filter_take_prefix (p : String × Nat → Bool) (l : SessionStore)
    (n : Nat) :
    (l.filter p).take ((l.take n).filter p).length = (l.take n).filter p := by
  have h := List.take_left ((l.take n).filter p) ((l.drop n).filter p)
  rw [← List.filter_append, List.take_append_drop] at h
  exact h

/-- Filtering one session id out of a list with pairwise-distinct ids
removes at most one element. -/
theorem length_le_filter_ne (l : SessionStore) (sid : String)
    (h : l.Pairwise (fun a b => a.1 ≠ b.1)) :
    l.length ≤ (l.filter (fun q => q.1 ≠ sid)).length + 1 := by
  induction l with
  | nil => simp
  | cons p rest ih =>
    have hhead := (List.pairwise_cons.mp h).1
    have htail := (List.pairwise_cons.mp h).2
    by_cases hp : p.1 = sid
    · have hrest : rest.filter (fun q => q.1 ≠ sid) = rest := by
        apply List.filter_eq_self.mpr
        intro q hq
        simpa using fun he => hhead q hq (hp.trans he.symm)
      rw [List.filter_cons, if_neg (by simp [hp])]
      rw [hrest]
      simp
    · rw [List.filter_cons, if_pos (by simpa using hp)]
      have := ih htail
      simp only [List.length_cons]
      omega

/-- The effect of one `save_session` on a store in retention normal form:
saving `sid` at a fresh instant `t` moves it to the most-recent slot and
re-truncates to `max_sessions`. -/
theorem save_session_take (max_sessions : Nat) (hist : SessionStore)
    (sid : String) (t : Nat) (hb : ∀ q ∈ hist, q.2 < t)
    (hs : hist.Pairwise (fun a b => a.2 > b.2)) :
    save_session max_sessions ((dedup_by_id hist).take max_sessions) sid t =
      (dedup_by_id ((sid, t) :: hist)).take max_sessions := by
  have hDsub := dedup_by_id_sublist hist
  have hDs : (dedup_by_id hist).Pairwise (fun a b => a.2 > b.2) :=
    List.Pairwise.sublist hDsub hs
  have hDb : ∀ q ∈ dedup_by_id hist, q.2 < t :=
    fun q hq => hb q (hDsub.subset hq)
  have hDid := dedup_by_id_pairwise hist
  rw [show dedup_by_id ((sid, t) :: hist) =
    (sid, t) :: (dedup_by_id hist).filter (fun q => q.1 ≠ sid) from rfl]
  show cleanup_old_sessions max_sessions
      ((sid, t) :: ((dedup_by_id hist).take max_sessions).filter
        (fun q => q.1 ≠ sid)) =
    ((sid, t) :: (dedup_by_id hist).filter (fun q => q.1 ≠ sid)).take
      max_sessions
  have hLfsub : (((dedup_by_id hist).take max_sessions).filter
      (fun q => q.1 ≠ sid)).Sublist (dedup_by_id hist) :=
    (List.filter_sublist _).trans (List.take_sublist _ _)
  have hFs : ((sid, t) :: ((dedup_by_id hist).take max_sessions).filter
      (fun q => q.1 ≠ sid)).Pairwise (fun a b => a.2 > b.2) := by
    refine List.pairwise_cons.mpr ⟨?_, List.Pairwise.sublist hLfsub hDs⟩
    intro q hq
    exact hDb q (hLfsub.subset hq)
  simp only [cleanup_old_sessions]
  rw [sortByMtimeDesc_eq_self _ hFs]
  cases max_sessions with
  | zero =>
    simp
  | succ m =>
    rw [List.take_succ_cons]
    by_cases hlf : (((dedup_by_id hist).take (m + 1)).filter
        (fun q => q.1 ≠ sid)).length > m
    · rw [if_pos (by simp only [List.length_cons]; omega)]
      rw [List.take_succ_cons]
      congr 1
      have hpre := filter_take_prefix (fun q => q.1 ≠ sid)
        (dedup_by_id hist) (m + 1)
      rw [← hpre, List.take_take]
      congr 1
      omega
    · rw [if_neg (by simp only [List.length_cons]; omega)]
      congr 1
      by_cases hDlen : (dedup_by_id hist).length ≤ m + 1
      · have hLD : (dedup_by_id hist).take (m + 1) = dedup_by_id hist :=
          List.take_of_length_le hDlen
        rw [hLD]
        rw [hLD] at hlf
        exact (List.take_of_length_le (by omega)).symm
      · have hLlen : ((dedup_by_id hist).take (m + 1)).length = m + 1 := by
          rw [List.length_take]
          omega
        have hk := length_le_filter_ne ((dedup_by_id hist).take (m + 1)) sid
          (List.Pairwise.sublist (List.take_sublist _ _) hDid)
        rw [hLlen] at hk
        have hkm : (((dedup_by_id hist).take (m + 1)).filter
            (fun q => q.1 ≠ sid)).length = m := by omega
        have hpre := filter_take_prefix (fun q => q.1 ≠ sid)
          (dedup_by_id hist) (m + 1)
        conv_rhs => rw [← hkm]
        exact hpre.symm

/-- Running a save sequence from a store in retention normal form keeps it
in retention normal form for the extended history. -/
theorem run_saves_model (ops : List String) :
    ∀ (hist : SessionStore) (t max_sessions : Nat),
      (∀ q ∈ hist, q.2 < t) →
      hist.Pairwise (fun a b => a.2 > b.2) →
      run_saves max_sessions ((dedup_by_id hist).take max_sessions) t ops =
        (dedup_by_id ((stamp_times t ops).reverse ++ hist)).take
          max_sessions := by
  induction ops with
  | nil =>
    intro hist t maxs hb hs
    simp [run_saves, stamp_times]
  | cons sid rest ih =>
    intro hist t maxs hb hs
    rw [show run_saves maxs ((dedup_by_id hist).take maxs) t (sid :: rest) =
      run_saves maxs
        (save_session maxs ((dedup_by_id hist).take maxs) sid t)
        (t + 1) rest from rfl]
    rw [save_session_take maxs hist sid t hb hs]
    have hb' : ∀ q ∈ (sid, t) :: hist, q.2 < t + 1 := by
      intro q hq
      rcases List.mem_cons.mp hq with rfl | hq'
      · simp
      · exact Nat.lt_succ_of_lt (hb q hq')
    have hs' : ((sid, t) :: hist).Pairwise (fun a b => a.2 > b.2) :=
      List.pairwise_cons.mpr ⟨fun q hq => hb q hq, hs⟩
    rw [ih ((sid, t) :: hist) (t + 1) maxs hb' hs']
    congr 2
    rw [show stamp_times t (sid :: rest) =
      (sid, t) :: stamp_times (t + 1) rest from rfl]
    rw [List.reverse_cons, List.append_assoc]
    rfl

/-- C4: after any sequence of session creates and saves (from an empty
store, one clock tick apart), the persisted store holds at most
`max_sessions` records, and those records are exactly the `max_sessions`
most recently modified sessions — each id's latest save, most recent
first, truncated to `max_sessions`. -/
theorem retention_invariant (max_sessions t0 : Nat) (ops : List String) :
    run_saves max_sessions [] t0 ops =
      retained_sessions max_sessions t0 ops ∧
    (run_saves max_sessions [] t0 ops).length ≤ max_sessions := by
  have h := run_saves_model ops [] t0 max_sessions (by simp) (by simp)
  rw [show (dedup_by_id []).take max_sessions = ([] : SessionStore) from
    by simp [dedup_by_id]] at h
  rw [List.append_nil] at h
  refine ⟨by rw [h]; rfl, ?_⟩
  rw [h]
  exact List.length_take_le _ _

/-- A 51-character component response. -/
def detailed_response : String := String.mk (List.replicate 51 'a')

/-- A theory dict with all seven rubric components filled by 51-character
responses. -/
def detailed_theory : TheoryDict :=
  [("initial_access", detailed_response),
   ("techniques_used", detailed_response),
   ("timeline", detailed_response),
   ("objective", detailed_response),
   ("attribution", detailed_response),
   ("impact", detailed_response),
   ("additional_iocs", detailed_response)]

/-- The component scores produced by `score_theory` when every component is
present, non-blank and longer than 50 characters: 90% of the component's
points, truncated to an integer (18, 18, 13, 13, 9, 9, 9; `int(13.5) = 13`
makes the total 89, not 90). -/
theorem componentScore_detailed (theory : TheoryDict) (component : String)
    (max_points : Int)
    (h : ∃ v, dictFind theory component = some v ∧ pyStrip v ≠ "" ∧
      v.length > 50) :
    componentScore theory component max_points =
      Int.floor ((max_points : ℚ) * (9 / 10)) := by
  obtain ⟨v, hv, hvs, hvl⟩ := h
  simp only [componentScore, hv]
  rw [if_pos hvs, if_pos hvl]

/-- Counterexample to C3: a theory with all seven components filled by
51-character strings totals 89, not 90 (the timeline and objective
components score `int(15 * 0.9) = 13`). -/
theorem score_theory_counterexample :
    (score_theory detailed_theory).total_score = 89 ∧
    (score_theory detailed_theory).total_score ≠ 90 := by
  have hstrip : pyStrip detailed_response ≠ "" := by decide
  have hlen : detailed_response.length > 50 := by decide
  have f1 : componentScore detailed_theory "initial_access" 20 = 18 := by
    rw [componentScore_detailed _ _ _
      ⟨detailed_response, by decide, hstrip, hlen⟩]
    norm_num
  have f2 : componentScore detailed_theory "techniques_used" 20 = 18 := by
    rw [componentScore_detailed _ _ _
      ⟨detailed_response, by decide, hstrip, hlen⟩]
    norm_num
  have f3 : componentScore detailed_theory "timeline" 15 = 13 := by
    rw [componentScore_detailed _ _ _
      ⟨detailed_response, by decide, hstrip, hlen⟩]
    norm_num
  have f4 : componentScore detailed_theory "objective" 15 = 13 := by
    rw [componentScore_detailed _ _ _
      ⟨detailed_response, by decide, hstrip, hlen⟩]
    norm_num
  have f5 : componentScore detailed_theory "attribution" 10 = 9 := by
    rw [componentScore_detailed _ _ _
      ⟨detailed_response, by decide, hstrip, hlen⟩]
    norm_num
  have f6 : componentScore detailed_theory "impact" 10 = 9 := by
    rw [componentScore_detailed _ _ _
      ⟨detailed_response, by decide, hstrip, hlen⟩]
    norm_num
  have f7 : componentScore detailed_theory "additional_iocs" 10 = 9 := by
    rw [componentScore_detailed _ _ _
      ⟨detailed_response, by decide, hstrip, hlen⟩]
    norm_num
  have htot : (score_theory detailed_theory).total_score = 89 := by
    simp only [score_theory, components, List.map_cons, List.map_nil,
      List.sum_cons, List.sum_nil, f1, f2, f3, f4, f5, f6, f7]
    norm_num
  exact ⟨htot, by rw [htot]; norm_num⟩

/-- C3 (amended): when all seven rubric components are present, non-blank
and longer than 50 characters, `score_theory` returns `total_score = 89`
(not 90: `int(15 * 0.9)` truncates 13.5 to 13 twice), grade "A" and
performance level "Excellent". -/
theorem score_theory_all_detailed (theory : TheoryDict)
    (h : ∀ cw ∈ components, ∃ v, dictFind theory cw.1 = some v ∧
      pyStrip v ≠ "" ∧ v.length > 50) :
    (score_theory theory).total_score = 89 ∧
    (score_theory theory).grade = "A" ∧
    (score_theory theory).performance_level = "Excellent" := by
  have f1 : componentScore theory "initial_access" 20 = 18 := by
    rw [componentScore_detailed _ _ _
      (h ("initial_access", 20) (by simp [components]))]
    norm_num
  have f2 : componentScore theory "techniques_used" 20 = 18 := by
    rw [componentScore_detailed _ _ _
      (h ("techniques_used", 20) (by simp [components]))]
    norm_num
  have f3 : componentScore theory "timeline" 15 = 13 := by
    rw [componentScore_detailed _ _ _
      (h ("timeline", 15) (by simp [components]))]
    norm_num
  have f4 : componentScore theory "objective" 15 = 13 := by
    rw [componentScore_detailed _ _ _
      (h ("objective", 15) (by simp [components]))]
    norm_num
  have f5 : componentScore theory "attribution" 10 = 9 := by
    rw [componentScore_detailed _ _ _
      (h ("attribution", 10) (by simp [components]))]
    norm_num
  have f6 : componentScore theory "impact" 10 = 9 := by
    rw [componentScore_detailed _ _ _
      (h ("impact", 10) (by simp [components]))]
    norm_num
  have f7 : componentScore theory "additional_iocs" 10 = 9 := by
    rw [componentScore_detailed _ _ _
      (h ("additional_iocs", 10) (by simp [components]))]
    norm_num
  have hg : calculate_grade 89 = "A" := by
    show (find_grade 89 grade_thresholds).getD "F" = "A"
    rw [grade_thresholds, find_grade_cons, if_neg (by norm_num),
      find_grade_cons, if_pos (by norm_num)]
    rfl
  refine ⟨?_, ?_, ?_⟩
  · simp only [score_theory, components, List.map_cons, List.map_nil,
      List.sum_cons, List.sum_nil, f1, f2, f3, f4, f5, f6, f7]
    norm_num
  · simp only [score_theory, components, List.map_cons, List.map_nil,
      List.sum_cons, List.sum_nil, f1, f2, f3, f4, f5, f6, f7]
    norm_num [hg]
  · simp only [score_theory, components, List.map_cons, List.map_nil,
      List.sum_cons, List.sum_nil, f1, f2, f3, f4, f5, f6, f7]
    norm_num

/-- Witness for C3 (amended): the all-detailed theory dict satisfies the
hypothesis and scores 89, grade "A", performance level "Excellent". -/
theorem score_theory_all_detailed_witness :
    (score_theory detailed_theory).total_score = 89 ∧
    (score_theory detailed_theory).grade = "A" ∧
    (score_theory detailed_theory).performance_level = "Excellent" :=
  score_theory_all_detailed detailed_theory (by
    intro cw hcw
    refine ⟨detailed_response, ?_, by decide, by decide⟩
    simp only [components, List.mem_cons, List.not_mem_nil, or_false] at hcw
    rcases hcw with rfl | rfl | rfl | rfl | rfl | rfl | rfl <;> decide)

/-- A fresh sample session with an empty evidence ledger. -/
def sample_session : SessionState :=
  { session_id := "abc12345"
    scenario_id := "carbanak_inspired_001"
    scenario_name := "Banking Intrusion"
    player_name := "Player"
    start_time := 0
    current_phase := "Initial Access"
    investigation_actions := []
    evidence_discovered := []
    theories_submitted := []
    hints_used := 0
    score_checkpoints := []
    is_completed := false
    completion_time := none
    final_score := none
    session_notes := ""
    metadata := [] }

/-- A formatted evidence item as the discovery resolver hands it to
`add_evidence_discovered`. -/
def sample_evidence : DiscoveredEvidence :=
  { id := "E1"
    etype := "email"
    source := "mail gateway"
    importance := "critical"
    description := "phishing email"
    content := "suspicious attachment"
    discovered_at := some "2025-01-01T10:00:00" }

/-- Counterexample to C1: submitting the same evidence id twice through
`add_evidence_discovered` leaves two entries in the session's
discovered-evidence list, not one — the method never checks for a
duplicate id. -/
theorem add_evidence_discovered_counterexample :
    ((add_evidence_discovered
        (add_evidence_discovered (some sample_session) sample_evidence
          "2025-01-01T10:00:00").1
        sample_evidence "2025-01-01T10:05:00").1.map
      (fun s => s.evidence_discovered.length)) = some 2 ∧
    ((add_evidence_discovered
        (add_evidence_discovered (some sample_session) sample_evidence
          "2025-01-01T10:00:00").1
        sample_evidence "2025-01-01T10:05:00").1.map
      (fun s => s.evidence_discovered.length)) ≠ some 1 := by
  refine ⟨rfl, by decide⟩

/-- C1 (amended): `add_evidence_discovered` appends one entry per call
regardless of whether the evidence id is already present, so an id
submitted N times yields N entries; duplicate suppression lives in the
discovery resolver (which skips already-discovered ids), not here. -/
theorem add_evidence_discovered_always_appends (s : SessionState)
    (evidence : DiscoveredEvidence) (stamps : List String) :
    ((stamps.foldl
        (fun acc now => (add_evidence_discovered acc evidence now).1)
        (some s)).map (fun s' => s'.evidence_discovered.length)) =
      some (s.evidence_discovered.length + stamps.length) := by
  induction stamps generalizing s with
  | nil => simp
  | cons now rest ih =>
    have hstep : (add_evidence_discovered (some s) evidence now).1 =
        some { s with evidence_discovered :=
          s.evidence_discovered ++
            [match evidence.discovered_at with
             | none => { evidence with discovered_at := some now }
             | some _ => evidence] } := by
      cases h : evidence.discovered_at <;>
        simp [add_evidence_discovered, h]
    rw [List.foldl_cons, hstep, ih]
    simp only [List.length_append, List.length_cons, List.length_nil,
      Option.some.injEq]
    omega

/-- C6: `resume_session` rejects a completed session — it returns the
not-found signal and leaves the manager (in particular the active session)
untouched — while resume of an existing non-completed session returns the
loaded state and makes it the active session. -/
theorem resume_session_spec (m : ManagerState) (session_id : String)
    (s : SessionState) (h : load_session m session_id = some s) :
    (s.is_completed = true → resume_session m session_id = (none, m)) ∧
    (s.is_completed = false → resume_session m session_id =
      (some s, { m with current_session := some s })) := by
  constructor <;> intro hc <;> simp [resume_session, h, hc]

/-- A completed persisted session. -/
def completed_sample_session : SessionState :=
  { sample_session with
    session_id := "done0001"
    is_completed := true
    completion_time := some 90 }

/-- A non-completed persisted session. -/
def open_sample_session : SessionState :=
  { sample_session with session_id := "live0001" }

/-- A manager with one completed and one open persisted session. -/
def sample_manager : ManagerState :=
  { current_session := none
    store := [("done0001", completed_sample_session),
              ("live0001", open_sample_session)] }

/-- Witness for C6: resuming the completed session is rejected; resuming
the open one succeeds and activates it. -/
theorem resume_session_spec_witness :
    resume_session sample_manager "done0001" = (none, sample_manager) ∧
    resume_session sample_manager "live0001" =
      (some open_sample_session,
       { sample_manager with
         current_session := some open_sample_session }) :=
  ⟨(resume_session_spec sample_manager "done0001"
      completed_sample_session rfl).1 rfl,
   (resume_session_spec sample_manager "live0001"
      open_sample_session rfl).2 rfl⟩

/-- Unfolding step for the candidate loop. -/
theorem discovery_loop_cons (details : String) (etypes disc : List String)
    (rng : Nat → ℚ) (now : String) (i : Nat) (item : EvidenceItem)
    (rest : List EvidenceItem) :
    discovery_loop details etypes disc rng now i (item :: rest) =
      if disc.contains item.id then
        discovery_loop details etypes disc rng now i rest
      else if etypes.contains item.etype then
        (if rng i < calculate_discovery_chance item
            (check_evidence_keywords details item) then
          some (format_evidence item now)
        else discovery_loop details etypes disc rng now (i + 1) rest)
      else discovery_loop details etypes disc rng now i rest := rfl

/-- A first evidence item of low importance, eligible under
`examine_logs`. -/
def resolver_item1 : EvidenceItem :=
  { id := "EV1", etype := "security_alert", source := "",
    importance := "low", description := "", content := "" }

/-- A second evidence item of low importance, eligible under
`examine_logs`. -/
def resolver_item2 : EvidenceItem :=
  { id := "EV2", etype := "security_alert", source := "",
    importance := "low", description := "", content := "" }

/-- A draw stream whose first draw (1/2) fails against the low-importance
chance 0.2 and whose second draw (0) succeeds. -/
def resolver_rng : Nat → ℚ := fun n => if n = 0 then 1 / 2 else 0

/-- Counterexample to C2: the draw for the first eligible candidate fails,
yet the call does not return none — it goes on to the second candidate and
returns it. -/
theorem check_for_evidence_discovery_counterexample :
    ¬ (resolver_rng 0 < calculate_discovery_chance resolver_item1
        (check_evidence_keywords "" resolver_item1)) ∧
    check_for_evidence_discovery "examine_logs" ""
        [resolver_item1, resolver_item2] [] resolver_rng "now" =
      some (format_evidence resolver_item2 "now") := by
  have hk1 : check_evidence_keywords "" resolver_item1 = false := by decide
  have hk2 : check_evidence_keywords "" resolver_item2 = false := by decide
  have hc1 : calculate_discovery_chance resolver_item1 false = 2 / 10 := rfl
  have hc2 : calculate_discovery_chance resolver_item2 false = 2 / 10 := rfl
  have hr0 : resolver_rng 0 = 1 / 2 := rfl
  have hr1 : resolver_rng 1 = 0 := rfl
  have hfail : ¬ (resolver_rng 0 < calculate_discovery_chance resolver_item1
      (check_evidence_keywords "" resolver_item1)) := by
    rw [hk1, hc1, hr0]
    norm_num
  refine ⟨hfail, ?_⟩
  show discovery_loop "" (action_mappings "examine_logs")
    (session_discovered_ids []) resolver_rng "now" 0
    [resolver_item1, resolver_item2] = _
  rw [discovery_loop_cons, if_neg (by decide), if_pos (by decide),
    hk1, hc1, hr0, if_neg (by norm_num),
    discovery_loop_cons, if_neg (by decide), if_pos (by decide),
    hk2, hc2, hr1, if_pos (by norm_num)]

/-- The candidate loop returns none exactly when the draw for every
type-eligible, not-yet-discovered candidate fails (the j-th eligible
candidate consumes the draw at index `i + j`). -/
theorem discovery_loop_none_iff (details : String) (etypes disc : List String)
    (rng : Nat → ℚ) (now : String) :
    ∀ (items : List EvidenceItem) (i : Nat),
      (discovery_loop details etypes disc rng now i items = none ↔
        ∀ j (hj : j < (eligible_items etypes disc items).length),
          ¬ (rng (i + j) < calculate_discovery_chance
              ((eligible_items etypes disc items).get ⟨j, hj⟩)
              (check_evidence_keywords details
                ((eligible_items etypes disc items).get ⟨j, hj⟩)))) := by
  intro items
  induction items with
  | nil =>
    intro i
    simp [discovery_loop, eligible_items]
  | cons item rest ih =>
    intro i
    by_cases hd : disc.contains item.id
    · have helig : eligible_items etypes disc (item :: rest) =
          eligible_items etypes disc rest := by
        simp only [eligible_items, List.filter_cons]
        rw [if_neg (by simp only [hd, Bool.not_true, Bool.false_and,
          Bool.false_eq_true, not_false_eq_true])]
      rw [discovery_loop_cons, if_pos hd, helig]
      exact ih i
    · have hd' : disc.contains item.id = false := by simpa using hd
      by_cases ht : etypes.contains item.etype
      · have helig : eligible_items etypes disc (item :: rest) =
            item :: eligible_items etypes disc rest := by
          simp only [eligible_items, List.filter_cons]
          rw [if_pos (by simp only [hd', ht, Bool.not_false,
            Bool.true_and])]
        rw [discovery_loop_cons, if_neg hd, if_pos ht, helig]
        by_cases hdraw : rng i < calculate_discovery_chance item
            (check_evidence_keywords details item)
        · rw [if_pos hdraw]
          constructor
          · intro hcontra
            exact absurd hcontra (by simp)
          · intro hall
            exfalso
            have h0 := hall 0 (by simp)
            rw [Nat.add_zero] at h0
            exact h0 hdraw
        · rw [if_neg hdraw, ih (i + 1)]
          constructor
          · intro hall j hj
            cases j with
            | zero =>
              rw [Nat.add_zero]
              simpa using hdraw
            | succ j =>
              have hj' : j < (eligible_items etypes disc rest).length := by
                simpa using hj
              have := hall j hj'
              rw [show i + 1 + j = i + (j + 1) by omega] at this
              simpa using this
          · intro hall j hj
            have hj' : j + 1 < (item :: eligible_items etypes disc rest).length := by
              simpa using hj
            have := hall (j + 1) hj'
            rw [show i + (j + 1) = i + 1 + j by omega] at this
            simpa using this
      · have ht' : etypes.contains item.etype = false := by simpa using ht
        have helig : eligible_items etypes disc (item :: rest) =
            eligible_items etypes disc rest := by
          simp only [eligible_items, List.filter_cons]
          rw [if_neg (by simp only [ht', Bool.and_false,
            Bool.false_eq_true, not_false_eq_true])]
        rw [discovery_loop_cons, if_neg hd, if_neg ht, helig]
        exact ih i

/-- C2 (amended): the discovery resolver draws once per type-eligible,
not-yet-discovered candidate in the scenario's declared order; if the draw
for the first candidate fails it moves on to the next, and the call
returns none exactly when every eligible candidate's draw fails. -/
theorem check_for_evidence_discovery_none_iff (action details : String)
    (scenario_items : List EvidenceItem)
    (evidence_discovered : List DiscoveredEvidence) (rng : Nat → ℚ)
    (now : String) :
    check_for_evidence_discovery action details scenario_items
        evidence_discovered rng now = none ↔
      ∀ j (hj : j < (eligible_items (action_mappings action)
          (session_discovered_ids evidence_discovered)
          scenario_items).length),
        ¬ (rng j < calculate_discovery_chance
            ((eligible_items (action_mappings action)
              (session_discovered_ids evidence_discovered)
              scenario_items).get ⟨j, hj⟩)
            (check_evidence_keywords details
              ((eligible_items (action_mappings action)
                (session_discovered_ids evidence_discovered)
                scenario_items).get ⟨j, hj⟩))) := by
  by_cases hempty : scenario_items.isEmpty
  · have hnil : scenario_items = [] := by
      cases scenario_items with
      | nil => rfl
      | cons a l => simp [List.isEmpty] at hempty
    subst hnil
    simp [check_for_evidence_discovery, eligible_items]
  · have hne : ¬ (scenario_items.isEmpty = true) := by simpa using hempty
    simp only [check_for_evidence_discovery, if_neg hne]
    have h := discovery_loop_none_iff details (action_mappings action)
      (session_discovered_ids evidence_discovered) rng now scenario_items 0
    simpa using h

/-- With no solution block, only the generic-elements term of
`_evaluate_theory_accuracy` survives (helper shared by the statements about
the empty-solution boundary). -/
theorem accuracy_empty_solution_eq (theory : TheoryEntry) :
    evaluate_theory_accuracy theory emptySolution =
      ((theory_elements.filter
        (fun e => substrOf e (pyLower theory.theory))).length : ℚ) / 4 * 15 := by
  have h0 : pyLower "" = "" := by decide
  have hlen4 : theory_elements.length = 4 := by decide
  have hle : ((theory_elements.filter
      (fun e => substrOf e (pyLower theory.theory))).length : ℚ) ≤ 4 := by
    have h := List.length_filter_le
      (fun e => substrOf e (pyLower theory.theory)) theory_elements
    rw [hlen4] at h
    exact_mod_cast h
  simp only [evaluate_theory_accuracy, emptySolution]
  rw [if_neg (by simp [h0]), if_neg (by simp [h0]), if_neg (by simp)]
  simp only [zero_add, hlen4]
  rw [min_eq_left]
  · norm_num
  · have h15 : ((theory_elements.filter
        (fun e => substrOf e (pyLower theory.theory))).length : ℚ) / (4 : ℕ) *
        15 ≤ 15 := by
      rw [div_mul_eq_mul_div, div_le_iff₀ (by norm_num)]
      push_cast
      linarith
    linarith

/-- Counterexample to C5: with no solution block, a theory whose text
mentions "timeline" scores 15/4 from the generic-elements term of
`_evaluate_theory_accuracy`, not 0. -/
theorem evaluate_theory_accuracy_counterexample :
    evaluate_theory_accuracy ⟨"2025-01-01T00:00:00", "timeline", "Initial Access"⟩
        emptySolution = 15 / 4 ∧
    evaluate_theory_accuracy ⟨"2025-01-01T00:00:00", "timeline", "Initial Access"⟩
        emptySolution ≠ 0 := by
  have hmention : (theory_elements.filter
      (fun e => substrOf e (pyLower
        (TheoryEntry.mk "2025-01-01T00:00:00" "timeline"
          "Initial Access").theory))).length = 1 := by
    decide
  have h : evaluate_theory_accuracy
      ⟨"2025-01-01T00:00:00", "timeline", "Initial Access"⟩ emptySolution =
      15 / 4 := by
    rw [accuracy_empty_solution_eq, hmention]
    norm_num
  exact ⟨h, by rw [h]; norm_num⟩

/-- C5 (amended): with an empty solution block the attack-type,
attack-vector and key-indicator terms all vanish, and
`_evaluate_theory_accuracy` returns exactly the generic-elements term —
15 times the fraction of {timeline, motivation, impact, technique}
occurring in the lowered theory text; it is 0 only when none of the four
occurs. -/
theorem evaluate_theory_accuracy_no_solution (theory : TheoryEntry) :
    evaluate_theory_accuracy theory emptySolution =
      ((theory_elements.filter
        (fun e => substrOf e (pyLower theory.theory))).length : ℚ) / 4 * 15 :=
  accuracy_empty_solution_eq theory

end Incidenter
